import Mathlib

/-!
Shallow embedding of the n8n workflow importer script
(`src/n8n-setup-scripts/import-to-db.py`) and proofs about its behaviour.

The script discovers files matching the glob pattern `*-workflow.json`
in a fixed directory, sorts them, checks that the n8n SQLite database file
exists, and then, for each file, parses it as JSON and inserts one row into
the `workflow` table, counting successes and reporting at the end.

Modelling choices:
* The filesystem is a list of filenames (`listing`) together with a map
  `contents : String → Option JValue`; `none` models a file whose read or
  JSON parse raises an exception in `load_workflow`.
* Existence of the database file is a boolean `dbExists`, fixed for the
  run (the filesystem does not change while the script runs).
* The database is the list of rows of the `workflow` table; a successful
  `INSERT` appends a row, and `lastrowid` is modelled as the new length.
* `datetime.now().isoformat()` is modelled by a clock `clock : Nat → String`
  indexed by the number of prior calls to `import_workflow_to_db`.
* Console output and database accesses are recorded as a trace of `Event`s
  so that counting messages, ordering and access patterns are provable.
-/

namespace ImportToDb

/-- JSON values as produced by Python `json.load`: null, booleans, numbers,
strings, arrays, and objects. An object keeps its fields in document order;
`getField` resolves a duplicated key to its last occurrence, as `json.load`
(dict construction) does. -/
inductive JValue : Type where
  | jnull : JValue
  | jbool : Bool → JValue
  | jnum : Int → JValue
  | jstr : String → JValue
  | jarr : List JValue → JValue
  | jobj : List (String × JValue) → JValue

/-- Model of the serialized text produced by Python `json.dumps` (lines
34 and 35 of the script). The library guarantees that `json.loads` applied
to `json.dumps v` yields a value structurally equal to `v`, so the stored
text is represented by the JSON value it denotes. -/
structure SerializedJson : Type where
  val : JValue

/-- Embedding of `json.dumps`. -/
def dumps (v : JValue) : SerializedJson := SerializedJson.mk v

/-- Embedding of deserializing a stored text column back to structured data. -/
def loads (s : SerializedJson) : JValue := s.val

/-- Embedding of Python `dict.get key` on the field list of a JSON object: the
last binding of a key wins, which is how `json.load` builds the dict. -/
def getField : List (String × JValue) → String → Option JValue
  | [], _ => none
  | p :: rest, key =>
    match getField rest key with
    | some w => some w
    | none => if p.1 = key then some p.2 else none

/-- Whether a JSON value is an object. A non-object top level makes
`workflow_data.get` raise `AttributeError` inside the `try` block. -/
def isObj : JValue → Bool
  | JValue.jobj _ => true
  | _ => false

/-- Python truthiness of a JSON-derived value, as evaluated by
`1 if active else 0` on line 41: `False`, `0`, `None`, the empty string,
the empty array and the empty object are falsy, everything else is truthy. -/
def pyTruthy : JValue → Bool
  | JValue.jnull => false
  | JValue.jbool b => b
  | JValue.jnum n => n != 0
  | JValue.jstr s => s != ""
  | JValue.jarr xs => !xs.isEmpty
  | JValue.jobj fs => !fs.isEmpty

/-- One row of the `workflow` table, as bound by the parameterized INSERT on
lines 38 to 41: `(name, nodes, connections, active, createdAt, updatedAt)`.
`name` keeps the bound Python value; `active` is the integer `0` or `1`. -/
structure Row : Type where
  name : JValue
  nodes : SerializedJson
  connections : SerializedJson
  active : Nat
  createdAt : String
  updatedAt : String

/-- The row built from a parsed workflow object, following lines 33 to 36
and the binding on line 41: `name` defaults to `"Untitled Workflow"`,
`nodes` to `[]`, `connections` to the empty object, `active` to `False`;
`active` is stored as `1` when truthy and `0` otherwise, and both
timestamp columns receive the same `now`. -/
def rowOf (fields : List (String × JValue)) (now : String) : Row :=
  Row.mk
    ((getField fields "name").getD (JValue.jstr "Untitled Workflow"))
    (dumps ((getField fields "nodes").getD (JValue.jarr [])))
    (dumps ((getField fields "connections").getD (JValue.jobj [])))
    (if pyTruthy ((getField fields "active").getD (JValue.jbool false)) then 1 else 0)
    now now

/-- Observable events of a run: console output lines, database-file
existence checks, connection openings and row insertions. `processFile`
marks the loop on line 80 turning to a given file. -/
inductive Event : Type where
  | banner : Event
  | printNoFiles : Event
  | printFoundCount : Nat → Event
  | checkDbExists : Bool → Event
  | printDbMissingMain : Event
  | printUsingDb : Event
  | processFile : String → Event
  | dbConnect : Event
  | insertRow : Row → Event
  | printImported : JValue → Nat → Event
  | printImportDbMissing : Event
  | printImportError : Event
  | printFailedToProcess : String → Event
  | printSummary : Nat → Event
  | printNextSteps : Event

/-- Embedding of `import_workflow_to_db` (lines 18 to 53). It first checks
`os.path.exists(db_path)` (line 21) and bails out with a message when the
database file is absent. Otherwise it connects, and inside the `try` block
extracts the four fields (raising `AttributeError`, caught on line 51, when
the top-level value is not an object), executes the INSERT, commits, prints
the success line with `lastrowid`, and returns `True`. Returns the events,
the new table contents, and the boolean result. -/
def import_workflow_to_db (dbExists : Bool) (rows : List Row) (now : String)
    (workflow_data : JValue) : List Event × List Row × Bool :=
  if dbExists = false then
    ([Event.checkDbExists false, Event.printImportDbMissing], rows, false)
  else
    match workflow_data with
    | JValue.jobj fields =>
      ([Event.checkDbExists true, Event.dbConnect, Event.insertRow (rowOf fields now),
        Event.printImported (rowOf fields now).name (rows.length + 1)],
       rows ++ [rowOf fields now], true)
    | _ =>
      ([Event.checkDbExists true, Event.dbConnect, Event.printImportError], rows, false)

/-- Embedding of `load_workflow` (lines 13 to 16): `none` models a raised
exception (unreadable file or invalid JSON). -/
def load_workflow (contents : String → Option JValue) (filepath : String) :
    Option JValue :=
  contents filepath

/-- Whether a filename is matched by the glob pattern `*-workflow.json`
used on line 62, i.e. whether it ends with the suffix `-workflow.json`
(the `*` may match the empty string). The test is on the character list
underlying the string. -/
def matchesPattern (filename : String) : Bool :=
  List.isSuffixOf "-workflow.json".data filename.data

/-- Embedding of the sorted glob of `*-workflow.json` files on line 62:
keep the matching names and sort them in ascending lexicographic order
(the files share one directory, so path order is filename order). -/
def discover (listing : List String) : List String :=
  List.mergeSort (listing.filter matchesPattern)

/-- The `for` loop of `main` (lines 79 to 86): process the files in order,
loading each and importing it, counting successful imports; a load failure
is caught and reported per file. The last argument counts prior calls to
`import_workflow_to_db` and indexes the clock. -/
def runLoop (contents : String → Option JValue) (clock : Nat → String)
    (dbExists : Bool) :
    List String → List Row → Nat → Nat → List Event × List Row × Nat
  | [], rows, count, _ => ([], rows, count)
  | f :: fs, rows, count, idx =>
    match load_workflow contents f with
    | none =>
      let rest := runLoop contents clock dbExists fs rows count idx
      (Event.processFile f :: Event.printFailedToProcess f :: rest.1,
       rest.2.1, rest.2.2)
    | some workflow_data =>
      let step := import_workflow_to_db dbExists rows (clock idx) workflow_data
      let rest := runLoop contents clock dbExists fs step.2.1
        (if step.2.2 then count + 1 else count) (idx + 1)
      (Event.processFile f :: step.1 ++ rest.1, rest.2.1, rest.2.2)

/-- Result of one run of `main`: the event trace, the final contents of the
`workflow` table, the value of `imported_count`, and the process exit code. -/
structure RunResult : Type where
  trace : List Event
  rows : List Row
  importedCount : Nat
  exitCode : Nat

/-- Embedding of `main` (lines 55 to 98): discover the files, abort with
exit code 1 when none match (lines 64 to 66) or when the database file is
absent (lines 71 to 74), otherwise run the per-file loop and always reach
the final report, returning exit code 0. -/
def main (listing : List String) (contents : String → Option JValue)
    (dbExists : Bool) (rows₀ : List Row) (clock : Nat → String) : RunResult :=
  let workflow_files := discover listing
  if workflow_files = [] then
    RunResult.mk [Event.banner, Event.printNoFiles] rows₀ 0 1
  else if dbExists = false then
    RunResult.mk
      [Event.banner, Event.printFoundCount workflow_files.length,
       Event.checkDbExists false, Event.printDbMissingMain] rows₀ 0 1
  else
    let r := runLoop contents clock dbExists workflow_files rows₀ 0 0
    RunResult.mk
      ([Event.banner, Event.printFoundCount workflow_files.length,
        Event.checkDbExists dbExists, Event.printUsingDb]
       ++ r.1 ++ [Event.printSummary r.2.2, Event.printNextSteps])
      r.2.1 r.2.2 0

/-- A file parses (its load does not raise). -/
def parsesOk (contents : String → Option JValue) (f : String) : Bool :=
  (contents f).isSome

/-- A file is a well-formed workflow record: it parses and its top-level
value is an object, so its import inserts a row. -/
def isWellFormed (contents : String → Option JValue) (f : String) : Bool :=
  match contents f with
  | some v => isObj v
  | none => false

/-- Events that are per-file error messages. -/
def isPerFileError : Event → Bool
  | Event.printImportDbMissing => true
  | Event.printImportError => true
  | Event.printFailedToProcess _ => true
  | _ => false

/-- Events that touch the database file: existence checks, connections,
insertions. -/
def isDbAccess : Event → Bool
  | Event.checkDbExists _ => true
  | Event.dbConnect => true
  | Event.insertRow _ => true
  | _ => false

/-- Events that check existence of the database file. -/
def isDbCheck : Event → Bool
  | Event.checkDbExists _ => true
  | _ => false

/-- Events that conclude the processing of one file: a success line or a
per-file error message. -/
def isOutcome : Event → Bool
  | Event.printImported _ _ => true
  | Event.printImportDbMissing => true
  | Event.printImportError => true
  | Event.printFailedToProcess _ => true
  | _ => false

/-- Number of per-file error messages in a trace. -/
def errCount (tr : List Event) : Nat := (tr.filter isPerFileError).length

/-- Number of database-file existence checks in a trace. -/
def checkCount (tr : List Event) : Nat := (tr.filter isDbCheck).length

/-- Number of per-file outcomes in a trace. -/
def outcomeCount (tr : List Event) : Nat := (tr.filter isOutcome).length

/-- The files the loop turned to, in order. -/
def processedFiles (tr : List Event) : List String :=
  tr.filterMap fun e =>
    match e with
    | Event.processFile f => some f
    | _ => none

/-! ### Unfolding lemmas for the import routine -/

/-- When the database file is absent, `import_workflow_to_db` checks for it,
prints the diagnostic, and returns `False` without touching the table. -/
theorem import_db_missing (rows : List Row) (now : String) (v : JValue) :
    import_workflow_to_db false rows now v =
      ([Event.checkDbExists false, Event.printImportDbMissing], rows, false) := rfl

/-- When the database file exists and the parsed value is an object,
`import_workflow_to_db` appends the row built by `rowOf`, prints the success
line with the new row id, and returns `True`. -/
theorem import_jobj (rows : List Row) (now : String)
    (fields : List (String × JValue)) :
    import_workflow_to_db true rows now (JValue.jobj fields) =
      ([Event.checkDbExists true, Event.dbConnect,
        Event.insertRow (rowOf fields now),
        Event.printImported (rowOf fields now).name (rows.length + 1)],
       rows ++ [rowOf fields now], true) := rfl

/-- When the database file exists but the parsed value is not an object,
the field extraction raises, the exception is caught, an error message is
printed, and the table is unchanged. -/
theorem import_notObj (rows : List Row) (now : String) (v : JValue)
    (hv : isObj v = false) :
    import_workflow_to_db true rows now v =
      ([Event.checkDbExists true, Event.dbConnect, Event.printImportError],
       rows, false) := by
  cases v <;> simp_all [isObj, import_workflow_to_db]

/-! ### The loop invariant -/

/-- Behaviour of the per-file loop when the database file exists, by
induction over the file list: the table grows by exactly one row per
well-formed file (pre-existing rows untouched), the success counter adds
the number of well-formed files, there is exactly one error message per
file that is not well-formed, one database existence check per file that
parses, one outcome per file, and the files are visited in list order. -/
theorem runLoop_spec (contents : String → Option JValue) (clock : Nat → String)
    (fs : List String) :
    ∀ (rows : List Row) (count idx : Nat),
      (∃ new, (runLoop contents clock true fs rows count idx).2.1 = rows ++ new ∧
        new.length = (fs.filter (isWellFormed contents)).length) ∧
      (runLoop contents clock true fs rows count idx).2.2 =
        count + (fs.filter (isWellFormed contents)).length ∧
      errCount (runLoop contents clock true fs rows count idx).1 =
        (fs.filter (fun f => !(isWellFormed contents f))).length ∧
      checkCount (runLoop contents clock true fs rows count idx).1 =
        (fs.filter (parsesOk contents)).length ∧
      outcomeCount (runLoop contents clock true fs rows count idx).1 = fs.length ∧
      processedFiles (runLoop contents clock true fs rows count idx).1 = fs := by
  induction fs with
  | nil =>
    intro rows count idx
    simp [runLoop, errCount, checkCount, outcomeCount, processedFiles]
  | cons f fs ih =>
    intro rows count idx
    cases hcf : contents f with
    | none =>
      have hwf : isWellFormed contents f = false := by simp [isWellFormed, hcf]
      have hpk : parsesOk contents f = false := by simp [parsesOk, hcf]
      obtain ⟨⟨new, hnew, hlen⟩, hcnt, herr, hchk, hout, hproc⟩ := ih rows count idx
      simp only [errCount, checkCount, outcomeCount, processedFiles]
        at herr hchk hout hproc
      refine ⟨⟨new, ?_, ?_⟩, ?_, ?_, ?_, ?_, ?_⟩ <;>
        simp [runLoop, load_workflow, hcf, hwf, hpk, List.filter_cons,
          errCount, checkCount, outcomeCount, processedFiles,
          isPerFileError, isDbCheck, isOutcome, hnew, hlen, hcnt, herr, hchk,
          hout, hproc]
    | some v =>
      cases hobj : isObj v with
      | true =>
        obtain ⟨fields, rfl⟩ : ∃ fields, v = JValue.jobj fields := by
          cases v <;> simp_all [isObj]
        have hwf : isWellFormed contents f = true := by
          simp [isWellFormed, hcf, isObj]
        have hpk : parsesOk contents f = true := by simp [parsesOk, hcf]
        obtain ⟨⟨new, hnew, hlen⟩, hcnt, herr, hchk, hout, hproc⟩ :=
          ih (rows ++ [rowOf fields (clock idx)]) (count + 1) (idx + 1)
        simp only [errCount, checkCount, outcomeCount, processedFiles]
          at herr hchk hout hproc
        refine ⟨⟨rowOf fields (clock idx) :: new, ?_, ?_⟩, ?_, ?_, ?_, ?_, ?_⟩ <;>
          simp [runLoop, load_workflow, hcf, import_jobj, hwf, hpk,
            List.filter_cons, errCount, checkCount, outcomeCount,
            processedFiles, isPerFileError, isDbCheck, isOutcome, hnew, hlen,
            hcnt, herr, hchk, hout, hproc] <;> omega
      | false =>
        have hwf : isWellFormed contents f = false := by
          simp [isWellFormed, hcf, hobj]
        have hpk : parsesOk contents f = true := by simp [parsesOk, hcf]
        obtain ⟨⟨new, hnew, hlen⟩, hcnt, herr, hchk, hout, hproc⟩ :=
          ih rows count (idx + 1)
        simp only [errCount, checkCount, outcomeCount, processedFiles]
          at herr hchk hout hproc
        refine ⟨⟨new, ?_, ?_⟩, ?_, ?_, ?_, ?_, ?_⟩ <;>
          simp [runLoop, load_workflow, hcf, import_notObj _ _ _ hobj, hwf,
            hpk, List.filter_cons, errCount, checkCount, outcomeCount,
            processedFiles, isPerFileError, isDbCheck, isOutcome, hnew, hlen,
            hcnt, herr, hchk, hout, hproc] <;> omega

/-! ### Counting helpers -/

theorem length_filter_not {α : Type} (p : α → Bool) (l : List α) :
    (l.filter (fun a => !(p a))).length = l.length - (l.filter p).length := by
  induction l with
  | nil => simp
  | cons a l ih =>
    have hle := List.length_filter_le p l
    cases ha : p a <;> simp [List.filter_cons, ha, ih] <;> omega

theorem errCount_append (a b : List Event) :
    errCount (a ++ b) = errCount a + errCount b := by
  simp [errCount, List.filter_append]

theorem checkCount_append (a b : List Event) :
    checkCount (a ++ b) = checkCount a + checkCount b := by
  simp [checkCount, List.filter_append]

theorem outcomeCount_append (a b : List Event) :
    outcomeCount (a ++ b) = outcomeCount a + outcomeCount b := by
  simp [outcomeCount, List.filter_append]

theorem processedFiles_append (a b : List Event) :
    processedFiles (a ++ b) = processedFiles a ++ processedFiles b := by
  simp [processedFiles]

/-! ### Unfolding lemmas for main -/

/-- When no file matches the pattern, `main` prints the diagnostic and
returns exit code 1 without looking at the database at all. -/
theorem main_noFiles (listing : List String) (contents : String → Option JValue)
    (dbExists : Bool) (rows₀ : List Row) (clock : Nat → String)
    (h : discover listing = []) :
    main listing contents dbExists rows₀ clock =
      RunResult.mk [Event.banner, Event.printNoFiles] rows₀ 0 1 := by
  simp [main, h]

/-- When files were found but the database file is absent, `main` checks for
it once, prints the diagnostic and returns exit code 1 with no insertion. -/
theorem main_dbMissing (listing : List String) (contents : String → Option JValue)
    (rows₀ : List Row) (clock : Nat → String) (h : discover listing ≠ []) :
    main listing contents false rows₀ clock =
      RunResult.mk
        [Event.banner, Event.printFoundCount (discover listing).length,
         Event.checkDbExists false, Event.printDbMissingMain] rows₀ 0 1 := by
  simp [main, h]

/-- When files were found and the database file exists, `main` runs the
per-file loop and always reaches the final report with exit code 0. -/
theorem main_run (listing : List String) (contents : String → Option JValue)
    (rows₀ : List Row) (clock : Nat → String) (h : discover listing ≠ []) :
    main listing contents true rows₀ clock =
      RunResult.mk
        ([Event.banner, Event.printFoundCount (discover listing).length,
          Event.checkDbExists true, Event.printUsingDb]
         ++ (runLoop contents clock true (discover listing) rows₀ 0 0).1
         ++ [Event.printSummary
              (runLoop contents clock true (discover listing) rows₀ 0 0).2.2,
             Event.printNextSteps])
        (runLoop contents clock true (discover listing) rows₀ 0 0).2.1
        (runLoop contents clock true (discover listing) rows₀ 0 0).2.2
        0 := by
  simp [main, h]

/-- Consolidated behaviour of a non-fatal run (files found, database file
present): the table grows by one row per well-formed file with the old rows
kept as an untouched initial segment, the reported count is the number of
well-formed files, there is one per-file error message per file that is not
well-formed, one database existence check in `main` plus one per parsed
file, one outcome per file, the loop visits exactly the discovered files in
order, the summary line reports the count, and the exit code is 0. -/
theorem main_spec (listing : List String) (contents : String → Option JValue)
    (rows₀ : List Row) (clock : Nat → String) (h : discover listing ≠ []) :
    (∃ new, (main listing contents true rows₀ clock).rows = rows₀ ++ new ∧
      new.length = ((discover listing).filter (isWellFormed contents)).length) ∧
    (main listing contents true rows₀ clock).importedCount
      = ((discover listing).filter (isWellFormed contents)).length ∧
    errCount (main listing contents true rows₀ clock).trace
      = ((discover listing).filter (fun f => !(isWellFormed contents f))).length ∧
    checkCount (main listing contents true rows₀ clock).trace
      = 1 + ((discover listing).filter (parsesOk contents)).length ∧
    outcomeCount (main listing contents true rows₀ clock).trace
      = (discover listing).length ∧
    processedFiles (main listing contents true rows₀ clock).trace
      = discover listing ∧
    Event.printSummary ((discover listing).filter (isWellFormed contents)).length
      ∈ (main listing contents true rows₀ clock).trace ∧
    (main listing contents true rows₀ clock).exitCode = 0 := by
  obtain ⟨⟨new, hnew, hlen⟩, hcnt, herr, hchk, hout, hproc⟩ :=
    runLoop_spec contents clock (discover listing) rows₀ 0 0
  rw [main_run listing contents rows₀ clock h]
  refine ⟨⟨new, by simp [hnew], hlen⟩, by simp [hcnt], ?_, ?_, ?_, ?_, ?_, rfl⟩
  · show errCount _ = _
    rw [errCount_append, errCount_append, herr]
    simp [errCount, isPerFileError]
  · show checkCount _ = _
    rw [checkCount_append, checkCount_append, hchk]
    simp [checkCount, isDbCheck]
  · show outcomeCount _ = _
    rw [outcomeCount_append, outcomeCount_append, hout]
    simp [outcomeCount, isOutcome]
  · show processedFiles _ = _
    rw [processedFiles_append, processedFiles_append, hproc]
    simp [processedFiles]
  · simp [List.mem_append, hcnt]

/-! ### The claims -/

/-- C1: for a batch of N discovered files of which exactly K are well-formed
workflow records, a run that passes the fatal checks inserts exactly K rows,
prints N minus K per-file error messages, reports a final imported count
equal to K, and exits with status 0. -/
theorem C1_batch_counts (listing : List String)
    (contents : String → Option JValue) (rows₀ : List Row)
    (clock : Nat → String) (h : discover listing ≠ []) :
    (main listing contents true rows₀ clock).rows.length
      = rows₀.length
        + ((discover listing).filter (isWellFormed contents)).length ∧
    errCount (main listing contents true rows₀ clock).trace
      = (discover listing).length
        - ((discover listing).filter (isWellFormed contents)).length ∧
    (main listing contents true rows₀ clock).importedCount
      = ((discover listing).filter (isWellFormed contents)).length ∧
    Event.printSummary ((discover listing).filter (isWellFormed contents)).length
      ∈ (main listing contents true rows₀ clock).trace ∧
    (main listing contents true rows₀ clock).exitCode = 0 := by
  obtain ⟨⟨new, hnew, hlen⟩, hcnt, herr, hchk, hout, hproc, hsum, hexit⟩ :=
    main_spec listing contents rows₀ clock h
  refine ⟨?_, ?_, hcnt, hsum, hexit⟩
  · rw [hnew]; simp [hlen]
  · rw [herr, length_filter_not]

/-- C2: the run exits with status 1 exactly when no workflow file was found
or the database file is absent; in either fatal case the table is left
unchanged, in the no-files case the database is never touched at all, and
every non-fatal run exits with status 0. -/
theorem C2_exit_codes (listing : List String)
    (contents : String → Option JValue) (dbExists : Bool) (rows₀ : List Row)
    (clock : Nat → String) :
    ((main listing contents dbExists rows₀ clock).exitCode = 1 ↔
      (discover listing = [] ∨ dbExists = false)) ∧
    ((discover listing = [] ∨ dbExists = false) →
      (main listing contents dbExists rows₀ clock).rows = rows₀) ∧
    (discover listing = [] →
      (main listing contents dbExists rows₀ clock).trace.filter isDbAccess
        = []) ∧
    (¬(discover listing = [] ∨ dbExists = false) →
      (main listing contents dbExists rows₀ clock).exitCode = 0) := by
  by_cases h : discover listing = []
  · simp [main_noFiles listing contents dbExists rows₀ clock h, h, isDbAccess]
  · cases dbExists with
    | false => simp [main_dbMissing listing contents rows₀ clock h, h]
    | true =>
      obtain ⟨hins, hcnt, herr, hchk, hout, hproc, hsum, hexit⟩ :=
        main_spec listing contents rows₀ clock h
      simp [hexit, h]

/-- C3: importing a well-formed file that carries all four fields stores the
name unchanged, stores nodes and connections as serialized text that
deserializes back to the input values, and stores active as 1 for true and
0 for false. -/
theorem C3_all_fields_row (rows : List Row) (now : String)
    (fields : List (String × JValue)) (nameV nodesV connV : JValue) (b : Bool)
    (hname : getField fields "name" = some nameV)
    (hnodes : getField fields "nodes" = some nodesV)
    (hconn : getField fields "connections" = some connV)
    (hact : getField fields "active" = some (JValue.jbool b)) :
    (import_workflow_to_db true rows now (JValue.jobj fields)).2.2 = true ∧
    (import_workflow_to_db true rows now (JValue.jobj fields)).2.1
      = rows ++ [rowOf fields now] ∧
    (rowOf fields now).name = nameV ∧
    loads (rowOf fields now).nodes = nodesV ∧
    loads (rowOf fields now).connections = connV ∧
    (rowOf fields now).active = (if b then 1 else 0) := by
  refine ⟨by rw [import_jobj], by rw [import_jobj], ?_, ?_, ?_, ?_⟩ <;>
    simp [rowOf, hname, hnodes, hconn, hact, loads, dumps, pyTruthy]

/-- C4: importing a well-formed file in which optional fields are absent
fills in the defaults for exactly the absent fields: the fixed placeholder
name, a serialized empty sequence for nodes, a serialized empty mapping for
connections, and 0 for active. -/
theorem C4_defaults (rows : List Row) (now : String)
    (fields : List (String × JValue)) :
    (import_workflow_to_db true rows now (JValue.jobj fields)).2.2 = true ∧
    (import_workflow_to_db true rows now (JValue.jobj fields)).2.1
      = rows ++ [rowOf fields now] ∧
    (getField fields "name" = none →
      (rowOf fields now).name = JValue.jstr "Untitled Workflow") ∧
    (getField fields "nodes" = none →
      loads (rowOf fields now).nodes = JValue.jarr []) ∧
    (getField fields "connections" = none →
      loads (rowOf fields now).connections = JValue.jobj []) ∧
    (getField fields "active" = none → (rowOf fields now).active = 0) := by
  refine ⟨by rw [import_jobj], by rw [import_jobj], ?_, ?_, ?_, ?_⟩ <;>
    intro habs <;> simp [rowOf, habs, loads, dumps, pyTruthy]

/-- C5: once the fatal checks have passed, per-file failures are contained
at the file boundary: every discovered file still receives its own outcome,
the exit status is 0 no matter how many files fail, and in particular a run
where no file is well-formed still exits 0 with an imported count of 0. -/
theorem C5_per_file_recovery (listing : List String)
    (contents : String → Option JValue) (rows₀ : List Row)
    (clock : Nat → String) (h : discover listing ≠ []) :
    (main listing contents true rows₀ clock).exitCode = 0 ∧
    outcomeCount (main listing contents true rows₀ clock).trace
      = (discover listing).length ∧
    ((∀ f ∈ discover listing, isWellFormed contents f = false) →
      (main listing contents true rows₀ clock).importedCount = 0 ∧
      (main listing contents true rows₀ clock).exitCode = 0) := by
  obtain ⟨hins, hcnt, herr, hchk, hout, hproc, hsum, hexit⟩ :=
    main_spec listing contents rows₀ clock h
  refine ⟨hexit, hout, fun hfail => ⟨?_, hexit⟩⟩
  rw [hcnt]
  have : (discover listing).filter (isWellFormed contents) = [] := by
    simp only [List.filter_eq_nil_iff]
    intro f hf
    simp [hfail f hf]
  rw [this]
  rfl

/-- C6 counterexample: in a run over one well-formed workflow file, the
existence of the database file is checked twice, not once: once in `main`
before the loop and once more inside `import_workflow_to_db` while the file
is being imported. This refutes the claim that the check is performed
exactly once and never during individual insertions. -/
theorem C6_counterexample :
    checkCount (main ["a-workflow.json"]
        (fun f => if f = "a-workflow.json" then some (JValue.jobj []) else none)
        true [] (fun _ => "t0")).trace = 2 ∧
    checkCount (main ["a-workflow.json"]
        (fun f => if f = "a-workflow.json" then some (JValue.jobj []) else none)
        true [] (fun _ => "t0")).trace ≠ 1 := by
  have hm : matchesPattern "a-workflow.json" = true := by decide
  have hd : discover ["a-workflow.json"] = ["a-workflow.json"] := by
    simp [discover, hm]
  have hne : discover ["a-workflow.json"] ≠ [] := by rw [hd]; simp
  rw [main_run _ _ _ _ hne, hd]
  constructor <;> decide

/-- C6 amended: the database existence check runs once in `main` before any
per-file processing, and is additionally re-evaluated inside
`import_workflow_to_db` at the start of each insertion attempt, so a
non-fatal run performs 1 + P checks where P is the number of files whose
load succeeded. -/
theorem C6_check_count (listing : List String)
    (contents : String → Option JValue) (rows₀ : List Row)
    (clock : Nat → String) (h : discover listing ≠ []) :
    checkCount (main listing contents true rows₀ clock).trace
      = 1 + ((discover listing).filter (parsesOk contents)).length := by
  obtain ⟨hins, hcnt, herr, hchk, hout, hproc, hsum, hexit⟩ :=
    main_spec listing contents rows₀ clock h
  exact hchk

/-- C7: a non-fatal run processes exactly the discovered files in the order
of the discovered list, which is sorted in ascending lexicographic order
and is a permutation of the filenames matching the pattern. -/
theorem C7_sorted_processing (listing : List String)
    (contents : String → Option JValue) (rows₀ : List Row)
    (clock : Nat → String) (h : discover listing ≠ []) :
    processedFiles (main listing contents true rows₀ clock).trace
      = discover listing ∧
    List.Sorted (fun a b : String => a ≤ b) (discover listing) ∧
    (discover listing).Perm (listing.filter matchesPattern) := by
  obtain ⟨hins, hcnt, herr, hchk, hout, hproc, hsum, hexit⟩ :=
    main_spec listing contents rows₀ clock h
  refine ⟨hproc, ?_, ?_⟩
  · simp only [discover]
    exact List.sorted_mergeSort' (listing.filter matchesPattern)
  · simp only [discover]
    exact List.mergeSort_perm (listing.filter matchesPattern) _

/-- C8: importing is purely additive. A successful single import appends
exactly one row; a non-fatal run over N well-formed files leaves the prior
rows as an untouched initial segment and appends N rows; running the
importer again over the same files appends another N rows. -/
theorem C8_additive (listing : List String)
    (contents : String → Option JValue) (rows₀ : List Row)
    (clock clock2 : Nat → String) (h : discover listing ≠ [])
    (hwf : ∀ f ∈ discover listing, isWellFormed contents f = true) :
    (∀ (rows : List Row) (now : String) (v : JValue),
      (import_workflow_to_db true rows now v).2.2 = true →
      ∃ r, (import_workflow_to_db true rows now v).2.1 = rows ++ [r]) ∧
    (∃ new₁, (main listing contents true rows₀ clock).rows = rows₀ ++ new₁ ∧
      new₁.length = (discover listing).length) ∧
    (∃ new₂, (main listing contents true
        (main listing contents true rows₀ clock).rows clock2).rows
      = (main listing contents true rows₀ clock).rows ++ new₂ ∧
      new₂.length = (discover listing).length) := by
  have hfull : (discover listing).filter (isWellFormed contents)
      = discover listing := List.filter_eq_self.mpr hwf
  obtain ⟨⟨new₁, hnew₁, hlen₁⟩, _, _, _, _, _, _, _⟩ :=
    main_spec listing contents rows₀ clock h
  obtain ⟨⟨new₂, hnew₂, hlen₂⟩, _, _, _, _, _, _, _⟩ :=
    main_spec listing contents ((main listing contents true rows₀ clock).rows)
      clock2 h
  refine ⟨?_, ⟨new₁, hnew₁, by rw [hlen₁, hfull]⟩,
    ⟨new₂, hnew₂, by rw [hlen₂, hfull]⟩⟩
  intro rows now v hok
  by_cases hobj : isObj v = true
  · obtain ⟨fields, rfl⟩ : ∃ fields, v = JValue.jobj fields := by
      cases v <;> simp_all [isObj]
    exact ⟨rowOf fields now, by rw [import_jobj]⟩
  · rw [import_notObj rows now v (by simpa using hobj)] at hok
    simp at hok

/-- If some file in the list parses to a non-object value, the loop trace
contains the per-file import error message for it. -/
theorem runLoop_importError_mem (contents : String → Option JValue)
    (clock : Nat → String) (fs : List String) :
    ∀ (rows : List Row) (count idx : Nat) (f : String) (v : JValue),
      f ∈ fs → contents f = some v → isObj v = false →
      Event.printImportError ∈ (runLoop contents clock true fs rows count idx).1 := by
  induction fs with
  | nil => simp
  | cons g fs ih =>
    intro rows count idx f v hmem hcf hv
    rcases List.mem_cons.mp hmem with rfl | hmem'
    · simp [runLoop, load_workflow, hcf, import_notObj _ _ _ hv]
    · cases hcg : contents g with
      | none =>
        simp only [runLoop, load_workflow, hcg, List.mem_cons]
        exact Or.inr (Or.inr (ih _ _ _ _ _ hmem' hcf hv))
      | some w =>
        simp only [runLoop, load_workflow, hcg, List.cons_append,
          List.mem_cons, List.mem_append]
        exact Or.inr (Or.inr (ih _ _ _ _ _ hmem' hcf hv))

/-- C9: a file whose content is valid JSON with a non-object top level fails
inside `import_workflow_to_db` with a caught, reported error and no inserted
row; the rest of the batch still receives its outcomes, at least one
per-file error message is printed, and the run exits 0. -/
theorem C9_non_object (listing : List String)
    (contents : String → Option JValue) (rows₀ : List Row)
    (clock : Nat → String) (f : String) (v : JValue)
    (h : discover listing ≠ []) (hf : f ∈ discover listing)
    (hcf : contents f = some v) (hv : isObj v = false) :
    (∀ (rows : List Row) (now : String),
      import_workflow_to_db true rows now v
        = ([Event.checkDbExists true, Event.dbConnect, Event.printImportError],
           rows, false)) ∧
    Event.printImportError ∈ (main listing contents true rows₀ clock).trace ∧
    outcomeCount (main listing contents true rows₀ clock).trace
      = (discover listing).length ∧
    (main listing contents true rows₀ clock).exitCode = 0 := by
  obtain ⟨hins, hcnt, herr, hchk, hout, hproc, hsum, hexit⟩ :=
    main_spec listing contents rows₀ clock h
  refine ⟨fun rows now => import_notObj rows now v hv, ?_, hout, hexit⟩
  rw [main_run listing contents rows₀ clock h]
  simp only [List.mem_append]
  exact Or.inl (Or.inr
    (runLoop_importError_mem contents clock (discover listing) rows₀ 0 0 f v
      hf hcf hv))

/-- C10: when the active field is present with any JSON value, the import
of a well-formed file succeeds with no type error, and the stored active
column is 1 exactly when the value is truthy and 0 exactly when it is one
of the falsy values: false, 0, null, the empty string, the empty array or
the empty object. -/
theorem C10_truthiness (rows : List Row) (now : String)
    (fields : List (String × JValue)) (av : JValue)
    (ha : getField fields "active" = some av) :
    (import_workflow_to_db true rows now (JValue.jobj fields)).2.2 = true ∧
    (import_workflow_to_db true rows now (JValue.jobj fields)).2.1
      = rows ++ [rowOf fields now] ∧
    ((rowOf fields now).active = 1 ↔ pyTruthy av = true) ∧
    ((rowOf fields now).active = 0 ↔ pyTruthy av = false) ∧
    (pyTruthy av = false ↔ (av = JValue.jbool false ∨ av = JValue.jnum 0 ∨
      av = JValue.jnull ∨ av = JValue.jstr "" ∨ av = JValue.jarr [] ∨
      av = JValue.jobj [])) := by
  refine ⟨by rw [import_jobj], by rw [import_jobj], ?_, ?_, ?_⟩
  · rw [show (rowOf fields now).active
        = (if pyTruthy av then 1 else 0) by simp [rowOf, ha]]
    cases hpt : pyTruthy av <;> simp
  · rw [show (rowOf fields now).active
        = (if pyTruthy av then 1 else 0) by simp [rowOf, ha]]
    cases hpt : pyTruthy av <;> simp
  · cases av <;> simp [pyTruthy] <;>
      simp [List.isEmpty_iff, Int.sub_eq_zero]

/-! ### Concrete witnesses -/

/-- Witness for C1 on a batch of one well-formed file. -/
theorem C1_batch_counts_witness :
    discover ["a-workflow.json"] ≠ [] ∧
    ((main ["a-workflow.json"]
        (fun f => if f = "a-workflow.json" then some (JValue.jobj []) else none)
        true [] (fun _ => "t0")).rows.length
      = ([] : List Row).length
        + ((discover ["a-workflow.json"]).filter
            (isWellFormed (fun f => if f = "a-workflow.json"
              then some (JValue.jobj []) else none))).length ∧
    errCount (main ["a-workflow.json"]
        (fun f => if f = "a-workflow.json" then some (JValue.jobj []) else none)
        true [] (fun _ => "t0")).trace
      = (discover ["a-workflow.json"]).length
        - ((discover ["a-workflow.json"]).filter
            (isWellFormed (fun f => if f = "a-workflow.json"
              then some (JValue.jobj []) else none))).length ∧
    (main ["a-workflow.json"]
        (fun f => if f = "a-workflow.json" then some (JValue.jobj []) else none)
        true [] (fun _ => "t0")).importedCount
      = ((discover ["a-workflow.json"]).filter
          (isWellFormed (fun f => if f = "a-workflow.json"
            then some (JValue.jobj []) else none))).length ∧
    Event.printSummary ((discover ["a-workflow.json"]).filter
        (isWellFormed (fun f => if f = "a-workflow.json"
          then some (JValue.jobj []) else none))).length
      ∈ (main ["a-workflow.json"]
          (fun f => if f = "a-workflow.json" then some (JValue.jobj []) else none)
          true [] (fun _ => "t0")).trace ∧
    (main ["a-workflow.json"]
        (fun f => if f = "a-workflow.json" then some (JValue.jobj []) else none)
        true [] (fun _ => "t0")).exitCode = 0) := by
  have hm : matchesPattern "a-workflow.json" = true := by decide
  have hne : discover ["a-workflow.json"] ≠ [] := by simp [discover, hm]
  exact ⟨hne, C1_batch_counts _ _ _ _ hne⟩

/-- Witness for C2 on an empty directory listing. -/
theorem C2_exit_codes_witness :
    ((main [] (fun _ => none) true [] (fun _ => "t0")).exitCode = 1 ↔
      (discover [] = [] ∨ true = false)) ∧
    ((discover [] = [] ∨ true = false) →
      (main [] (fun _ => none) true [] (fun _ => "t0")).rows = []) ∧
    (discover [] = [] →
      (main [] (fun _ => none) true [] (fun _ => "t0")).trace.filter isDbAccess
        = []) ∧
    (¬(discover [] = [] ∨ true = false) →
      (main [] (fun _ => none) true [] (fun _ => "t0")).exitCode = 0) :=
  C2_exit_codes [] (fun _ => none) true [] (fun _ => "t0")

/-- Witness for C3 on the example file from the specification. -/
theorem C3_all_fields_row_witness :
    getField [("name", JValue.jstr "Test"), ("nodes", JValue.jarr []),
      ("connections", JValue.jobj []), ("active", JValue.jbool true)] "name"
      = some (JValue.jstr "Test") ∧
    ((import_workflow_to_db true [] "t0"
        (JValue.jobj [("name", JValue.jstr "Test"), ("nodes", JValue.jarr []),
          ("connections", JValue.jobj []),
          ("active", JValue.jbool true)])).2.2 = true ∧
    (import_workflow_to_db true [] "t0"
        (JValue.jobj [("name", JValue.jstr "Test"), ("nodes", JValue.jarr []),
          ("connections", JValue.jobj []),
          ("active", JValue.jbool true)])).2.1
      = [] ++ [rowOf [("name", JValue.jstr "Test"), ("nodes", JValue.jarr []),
          ("connections", JValue.jobj []), ("active", JValue.jbool true)] "t0"] ∧
    (rowOf [("name", JValue.jstr "Test"), ("nodes", JValue.jarr []),
        ("connections", JValue.jobj []), ("active", JValue.jbool true)] "t0").name
      = JValue.jstr "Test" ∧
    loads (rowOf [("name", JValue.jstr "Test"), ("nodes", JValue.jarr []),
        ("connections", JValue.jobj []), ("active", JValue.jbool true)] "t0").nodes
      = JValue.jarr [] ∧
    loads (rowOf [("name", JValue.jstr "Test"), ("nodes", JValue.jarr []),
        ("connections", JValue.jobj []),
        ("active", JValue.jbool true)] "t0").connections
      = JValue.jobj [] ∧
    (rowOf [("name", JValue.jstr "Test"), ("nodes", JValue.jarr []),
        ("connections", JValue.jobj []), ("active", JValue.jbool true)] "t0").active
      = (if true then 1 else 0)) :=
  ⟨rfl, C3_all_fields_row [] "t0" _ (JValue.jstr "Test") (JValue.jarr [])
    (JValue.jobj []) true rfl rfl rfl rfl⟩

/-- Witness for C4 on a file whose top-level object is empty. -/
theorem C4_defaults_witness :
    (import_workflow_to_db true [] "t0" (JValue.jobj [])).2.2 = true ∧
    (import_workflow_to_db true [] "t0" (JValue.jobj [])).2.1
      = [] ++ [rowOf [] "t0"] ∧
    (getField [] "name" = none →
      (rowOf [] "t0").name = JValue.jstr "Untitled Workflow") ∧
    (getField [] "nodes" = none →
      loads (rowOf [] "t0").nodes = JValue.jarr []) ∧
    (getField [] "connections" = none →
      loads (rowOf [] "t0").connections = JValue.jobj []) ∧
    (getField [] "active" = none → (rowOf [] "t0").active = 0) :=
  C4_defaults [] "t0" []

/-- Witness for C5 on a batch of one file that fails to parse. -/
theorem C5_per_file_recovery_witness :
    discover ["a-workflow.json"] ≠ [] ∧
    ((main ["a-workflow.json"] (fun _ => none) true []
        (fun _ => "t0")).exitCode = 0 ∧
    outcomeCount (main ["a-workflow.json"] (fun _ => none) true []
        (fun _ => "t0")).trace = (discover ["a-workflow.json"]).length ∧
    ((∀ f ∈ discover ["a-workflow.json"],
        isWellFormed (fun _ => none) f = false) →
      (main ["a-workflow.json"] (fun _ => none) true []
        (fun _ => "t0")).importedCount = 0 ∧
      (main ["a-workflow.json"] (fun _ => none) true []
        (fun _ => "t0")).exitCode = 0)) := by
  have hm : matchesPattern "a-workflow.json" = true := by decide
  have hne : discover ["a-workflow.json"] ≠ [] := by simp [discover, hm]
  exact ⟨hne, C5_per_file_recovery _ _ _ _ hne⟩

/-- Witness for the amended C6 on a batch of one well-formed file: the run
performs 1 + 1 = 2 database existence checks. -/
theorem C6_check_count_witness :
    discover ["a-workflow.json"] ≠ [] ∧
    checkCount (main ["a-workflow.json"]
        (fun f => if f = "a-workflow.json" then some (JValue.jobj []) else none)
        true [] (fun _ => "t0")).trace
      = 1 + ((discover ["a-workflow.json"]).filter
          (parsesOk (fun f => if f = "a-workflow.json"
            then some (JValue.jobj []) else none))).length := by
  have hm : matchesPattern "a-workflow.json" = true := by decide
  have hne : discover ["a-workflow.json"] ≠ [] := by simp [discover, hm]
  exact ⟨hne, C6_check_count _ _ _ _ hne⟩

/-- Witness for C7 on a listing with one matching file. -/
theorem C7_sorted_processing_witness :
    discover ["a-workflow.json"] ≠ [] ∧
    (processedFiles (main ["a-workflow.json"] (fun _ => none) true []
        (fun _ => "t0")).trace = discover ["a-workflow.json"] ∧
    List.Sorted (fun a b : String => a ≤ b) (discover ["a-workflow.json"]) ∧
    (discover ["a-workflow.json"]).Perm
      (["a-workflow.json"].filter matchesPattern)) := by
  have hm : matchesPattern "a-workflow.json" = true := by decide
  have hne : discover ["a-workflow.json"] ≠ [] := by simp [discover, hm]
  exact ⟨hne, C7_sorted_processing _ _ _ _ hne⟩

/-- Witness for C8 on a batch of one well-formed file, imported twice. -/
theorem C8_additive_witness :
    discover ["a-workflow.json"] ≠ [] ∧
    ((∀ (rows : List Row) (now : String) (v : JValue),
      (import_workflow_to_db true rows now v).2.2 = true →
      ∃ r, (import_workflow_to_db true rows now v).2.1 = rows ++ [r]) ∧
    (∃ new₁, (main ["a-workflow.json"]
        (fun f => if f = "a-workflow.json" then some (JValue.jobj []) else none)
        true [] (fun _ => "t0")).rows = [] ++ new₁ ∧
      new₁.length = (discover ["a-workflow.json"]).length) ∧
    (∃ new₂, (main ["a-workflow.json"]
        (fun f => if f = "a-workflow.json" then some (JValue.jobj []) else none)
        true (main ["a-workflow.json"]
          (fun f => if f = "a-workflow.json" then some (JValue.jobj []) else none)
          true [] (fun _ => "t0")).rows (fun _ => "t1")).rows
      = (main ["a-workflow.json"]
          (fun f => if f = "a-workflow.json" then some (JValue.jobj []) else none)
          true [] (fun _ => "t0")).rows ++ new₂ ∧
      new₂.length = (discover ["a-workflow.json"]).length)) := by
  have hm : matchesPattern "a-workflow.json" = true := by decide
  have hd : discover ["a-workflow.json"] = ["a-workflow.json"] := by
    simp [discover, hm]
  have hne : discover ["a-workflow.json"] ≠ [] := by simp [hd]
  have hwf : ∀ f ∈ discover ["a-workflow.json"],
      isWellFormed (fun f => if f = "a-workflow.json"
        then some (JValue.jobj []) else none) f = true := by
    rw [hd]
    intro f hf
    rw [List.mem_singleton.mp hf]
    rfl
  exact ⟨hne, C8_additive _ _ _ _ _ hne hwf⟩

/-- Witness for C9 on a file whose content is the JSON array `[]`. -/
theorem C9_non_object_witness :
    discover ["a-workflow.json"] ≠ [] ∧
    ((∀ (rows : List Row) (now : String),
      import_workflow_to_db true rows now (JValue.jarr [])
        = ([Event.checkDbExists true, Event.dbConnect, Event.printImportError],
           rows, false)) ∧
    Event.printImportError ∈ (main ["a-workflow.json"]
        (fun f => if f = "a-workflow.json" then some (JValue.jarr []) else none)
        true [] (fun _ => "t0")).trace ∧
    outcomeCount (main ["a-workflow.json"]
        (fun f => if f = "a-workflow.json" then some (JValue.jarr []) else none)
        true [] (fun _ => "t0")).trace = (discover ["a-workflow.json"]).length ∧
    (main ["a-workflow.json"]
        (fun f => if f = "a-workflow.json" then some (JValue.jarr []) else none)
        true [] (fun _ => "t0")).exitCode = 0) := by
  have hm : matchesPattern "a-workflow.json" = true := by decide
  have hd : discover ["a-workflow.json"] = ["a-workflow.json"] := by
    simp [discover, hm]
  have hne : discover ["a-workflow.json"] ≠ [] := by simp [hd]
  have hf : "a-workflow.json" ∈ discover ["a-workflow.json"] := by
    rw [hd]; exact List.mem_singleton.mpr rfl
  exact ⟨hne, C9_non_object _ _ _ _ "a-workflow.json" (JValue.jarr [])
    hne hf rfl rfl⟩

/-- Witness for C10 on an active field holding the number 5, a truthy
non-boolean value. -/
theorem C10_truthiness_witness :
    getField [("active", JValue.jnum 5)] "active" = some (JValue.jnum 5) ∧
    ((import_workflow_to_db true [] "t0"
        (JValue.jobj [("active", JValue.jnum 5)])).2.2 = true ∧
    (import_workflow_to_db true [] "t0"
        (JValue.jobj [("active", JValue.jnum 5)])).2.1
      = [] ++ [rowOf [("active", JValue.jnum 5)] "t0"] ∧
    ((rowOf [("active", JValue.jnum 5)] "t0").active = 1 ↔
      pyTruthy (JValue.jnum 5) = true) ∧
    ((rowOf [("active", JValue.jnum 5)] "t0").active = 0 ↔
      pyTruthy (JValue.jnum 5) = false) ∧
    (pyTruthy (JValue.jnum 5) = false ↔
      (JValue.jnum 5 = JValue.jbool false ∨ JValue.jnum 5 = JValue.jnum 0 ∨
       JValue.jnum 5 = JValue.jnull ∨ JValue.jnum 5 = JValue.jstr "" ∨
       JValue.jnum 5 = JValue.jarr [] ∨ JValue.jnum 5 = JValue.jobj []))) :=
  ⟨rfl, C10_truthiness [] "t0" [("active", JValue.jnum 5)] (JValue.jnum 5) rfl⟩

end ImportToDb
